import Mathlib

/-!
# Verification of the pyo3-asyncio core (`src/lib.rs`, `src/tokio.rs`)

A shallow embedding of the pyo3-asyncio bridge between the Python asyncio
event loop and a native Rust runtime.  Python objects are modelled
abstractly by identifiers; fallible Python calls return `Except PyErr`;
the `futures::channel::oneshot` channel used by the awaitable-to-future
conversion is modelled by an explicit channel-state type; the process-wide
`OnceCell` registry of `lib.rs` is modelled as a record of optional cached
handles, with the host interpreter's responses supplied as an explicit
`Host` record of call results.  Panics (`expect(EXPECT_INIT)`) are modelled
by an `Outcome` type distinguishing normal returns from panics.
-/

namespace PyO3Asyncio

/-- An abstract Python object (a reference-counted handle; identity only). -/
structure PyObject where
  objId : Nat
deriving DecidableEq, Repr

/-- A Python exception value, as carried by `pyo3::PyErr`.  The flag records
whether the exception is an instance of `KeyboardInterrupt` (the only
class test the embedded code performs, in `run_forever`). -/
structure PyErr where
  exc : PyObject
  isKeyboardInterrupt : Bool
deriving DecidableEq, Repr

/-- `pyo3::PyResult`. -/
abbrev PyResult (α : Type) := Except PyErr α

instance {ε α : Type} [DecidableEq ε] [DecidableEq α] : DecidableEq (Except ε α) := fun a b =>
  match a, b with
  | Except.ok x, Except.ok y => decidable_of_iff (x = y) (by simp)
  | Except.error x, Except.error y => decidable_of_iff (x = y) (by simp)
  | Except.ok _, Except.error _ => isFalse (by simp)
  | Except.error _, Except.ok _ => isFalse (by simp)

/-- `std::task::Poll`. -/
inductive Poll (α : Type) where
  | ready (a : α)
  | pending
deriving DecidableEq, Repr

/-- The observable state of a `futures::channel::oneshot` channel carrying a
`PyResult<PyObject>`:
* `pending`      — nothing sent yet (the sender is still alive);
* `delivered v`  — the sender sent payload `v`;
* `disconnected` — the sender was consumed or dropped without a delivery
  (the receiver's poll reports `Canceled`). -/
inductive ChanState where
  | pending
  | delivered (v : PyResult PyObject)
  | disconnected
deriving DecidableEq, Repr

/-- State of one in-flight `into_future` conversion (`lib.rs`): the
`PyTaskCompleter`'s `tx : Option<oneshot::Sender<..>>` (here just the flag
`txHeld`), the channel itself, and whether the receiving `PyFuture` is
still alive. -/
structure ConvState where
  txHeld : Bool
  chan : ChanState
  rxAlive : Bool
deriving DecidableEq, Repr

/-- A completed Python `asyncio` task, as seen by the done-callback:
`task.result()` either returns the task's value or re-raises the
exception the task raised (including `CancelledError`). -/
structure PyTask where
  result : PyResult PyObject
deriving DecidableEq, Repr

/-- `oneshot::Sender::send`: if the receiver is alive the payload is
delivered; otherwise `send` returns `Err` and the channel is simply
disconnected.  Only meaningful from the `pending` state (the sender is
consumed by `send`, so no second send can occur). -/
def oneshotSend (rxAlive : Bool) (v : PyResult PyObject) (c : ChanState) : ChanState :=
  match c with
  | ChanState.pending => if rxAlive then ChanState.delivered v else ChanState.disconnected
  | c => c

/-- Dropping a `oneshot::Sender` without sending: the receiver will observe
`Canceled`. -/
def oneshotDropSender (c : ChanState) : ChanState :=
  match c with
  | ChanState.pending => ChanState.disconnected
  | c => c

/-- `PyTaskCompleter::__call__` (`lib.rs` lines 313–337): reads the finished
task's result-or-exception, and — if the sender is still held — takes it
(`self.tx.take()`) and sends the payload, ignoring a send error ("cancellation
is not an error").  Always returns `Ok(())`. -/
def pyTaskCompleterCall (task : PyTask) (s : ConvState) : PyResult Unit × ConvState :=
  let result : PyResult PyObject := task.result
  if s.txHeld then
    (Except.ok (), { s with txHeld := false, chan := oneshotSend s.rxAlive result s.chan })
  else
    (Except.ok (), s)

/-- The `PyTaskCompleter` object is dropped without ever being invoked
(e.g. the task was garbage-collected or the loop shut down): its held
sender, if any, is dropped. -/
def completerDropped (s : ConvState) : ConvState :=
  if s.txHeld then { s with txHeld := false, chan := oneshotDropSender s.chan } else s

/-- Events that can act on an in-flight conversion after the completion
callback has been attached. -/
inductive ConvEvent where
  | completer (task : PyTask)
  | gcSender
  | dropRx
deriving DecidableEq, Repr

/-- One event step on the conversion state. -/
def convStep (s : ConvState) (e : ConvEvent) : ConvState :=
  match e with
  | ConvEvent.completer t => (pyTaskCompleterCall t s).2
  | ConvEvent.gcSender => completerDropped s
  | ConvEvent.dropRx => { s with rxAlive := false }

/-- Run a sequence of events. -/
def convRun (s : ConvState) (es : List ConvEvent) : ConvState :=
  es.foldl convStep s

/-- The state created by `TryFrom<&PyAny> for PyFuture` (`lib.rs` lines
383–398): a fresh `oneshot::channel()`, sender held by the scheduled
callback chain, receiver held by the returned `PyFuture`. -/
def convInit : ConvState :=
  { txHeld := true, chan := ChanState.pending, rxAlive := true }

/-- `<PyFuture as Future>::poll` (`lib.rs` lines 363–381): polls the
receiver. On `Ok(item)` the forwarded `PyResult` is returned ready; on
channel disconnection the poll synthesizes an `asyncio.CancelledError`
(via the cached `ASYNCIO` module; `mkCancelled` models the outcome of
`ASYNCIO.call_method0("CancelledError")` and `PyErr::from_instance`, whose
own failure is propagated by `?` as the ready error); otherwise pending. -/
def pyFuturePoll (mkCancelled : PyResult PyErr) (c : ChanState) : Poll (PyResult PyObject) :=
  match c with
  | ChanState.delivered item => Poll.ready item
  | ChanState.disconnected =>
    match mkCancelled with
    | Except.ok ce => Poll.ready (Except.error ce)
    | Except.error e => Poll.ready (Except.error e)
  | ChanState.pending => Poll.pending

/-! ## The process-wide registry (`lib.rs` lines 150–306) -/

/-- Normal return versus panic (`OnceCell::get().expect(EXPECT_INIT)`). -/
inductive Outcome (α : Type) where
  | ok (a : α)
  | panicked (msg : String)
deriving DecidableEq, Repr

/-- Whether an outcome is a panic. -/
def Outcome.isPanic {α : Type} : Outcome α → Bool
  | Outcome.panicked _ => true
  | Outcome.ok _ => false

/-- The message of the `expect` calls on the registry cells. -/
def EXPECT_INIT : String := "PyO3 Asyncio has not been initialized"

/-- The six process-wide `OnceCell<PyObject>` statics of `lib.rs`
(`ASYNCIO`, `ENSURE_FUTURE`, `EVENT_LOOP`, `EXECUTOR`, `CALL_SOON`,
`CREATE_FUTURE`); `none` is an unset cell. -/
structure Registry where
  asyncio : Option PyObject
  ensureFuture : Option PyObject
  eventLoop : Option PyObject
  executor : Option PyObject
  callSoon : Option PyObject
  createFuture : Option PyObject
deriving DecidableEq, Repr

/-- The registry at process start: every cell unset. -/
def emptyRegistry : Registry :=
  { asyncio := none, ensureFuture := none, eventLoop := none,
    executor := none, callSoon := none, createFuture := none }

/-- `OnceCell::get_or_init`: keep the first value, ignore later ones. -/
def getOrInit (cell : Option PyObject) (v : PyObject) : Option PyObject :=
  match cell with
  | some x => some x
  | none => some v

/-- The host interpreter's responses to the Python calls the embedded code
makes, one field per distinct call site.  Each field gives the result the
host would produce for that call in the scenario being analysed. -/
structure Host where
  importAsyncio : PyResult PyObject
  getEnsureFuture : PyObject → PyResult PyObject
  callGetEventLoop : PyObject → PyResult PyObject
  importThreadMod : PyResult PyObject
  getThreadPoolExecutorCls : PyObject → PyResult PyObject
  callCls : PyObject → PyResult PyObject
  setDefaultExecutor : PyObject → PyObject → PyResult PyObject
  getCallSoon : PyObject → PyResult PyObject
  getCreateFuture : PyObject → PyResult PyObject
  callRunForever : PyObject → PyResult PyObject
  callShutdown : PyObject → PyResult PyObject
  callStop : PyObject → PyResult PyObject
  callClose : PyObject → PyResult PyObject

/-- The handles produced by a successful run of the closure passed to
`EVENT_LOOP.get_or_try_init` in `try_init`. -/
structure InitBundle where
  asyncio : PyObject
  ensureFut : PyObject
  eventLoop : PyObject
  executor : PyObject
  callSoon : PyObject
  createFuture : PyObject
deriving DecidableEq, Repr

/-- The fallible closure of `try_init` (`lib.rs` lines 209–226): import
`asyncio`, fetch `ensure_future`, get the event loop, build a
`ThreadPoolExecutor`, install it as the loop's default executor, and
fetch `call_soon_threadsafe` and `create_future`. -/
def tryInitClosure (h : Host) : PyResult InitBundle := do
  let asyncio ← h.importAsyncio
  let ensureFut ← h.getEnsureFuture asyncio
  let eventLoop ← h.callGetEventLoop asyncio
  let threadMod ← h.importThreadMod
  let cls ← h.getThreadPoolExecutorCls threadMod
  let executor ← h.callCls cls
  let _ ← h.setDefaultExecutor eventLoop executor
  let callSoon ← h.getCallSoon eventLoop
  let createFuture ← h.getCreateFuture eventLoop
  pure { asyncio := asyncio, ensureFut := ensureFut, eventLoop := eventLoop,
         executor := executor, callSoon := callSoon, createFuture := createFuture }

/-- `try_init` (`lib.rs` lines 208–230): `EVENT_LOOP.get_or_try_init` runs
the closure only when the cell is unset; on success the remaining cells are
populated with `get_or_init`; the closure's error is propagated and then no
cell has been written.  The boolean reports whether the setup closure ran
(`false` = the call was a no-op on an already-initialized registry). -/
def try_init (h : Host) (reg : Registry) : PyResult Unit × Registry × Bool :=
  match reg.eventLoop with
  | some _ => (Except.ok (), reg, false)
  | none =>
    match tryInitClosure h with
    | Except.error e => (Except.error e, reg, true)
    | Except.ok b =>
      (Except.ok (),
       { asyncio := getOrInit reg.asyncio b.asyncio,
         ensureFuture := getOrInit reg.ensureFuture b.ensureFut,
         eventLoop := some b.eventLoop,
         executor := getOrInit reg.executor b.executor,
         callSoon := getOrInit reg.callSoon b.callSoon,
         createFuture := getOrInit reg.createFuture b.createFuture },
       true)

/-- `get_event_loop` (`lib.rs` lines 233–235): `EVENT_LOOP.get().expect(EXPECT_INIT)`. -/
def get_event_loop (reg : Registry) : Outcome PyObject :=
  match reg.eventLoop with
  | none => Outcome.panicked EXPECT_INIT
  | some l => Outcome.ok l

/-- `run_forever` (`lib.rs` lines 283–293): call `run_forever` on the cached
loop; a `KeyboardInterrupt` is swallowed into `Ok(())`, any other exception
is returned as the error, a normal return is `Ok(())`. -/
def run_forever (h : Host) (reg : Registry) : Outcome (PyResult Unit) :=
  match get_event_loop reg with
  | Outcome.panicked m => Outcome.panicked m
  | Outcome.ok l =>
    match h.callRunForever l with
    | Except.error e =>
      if e.isKeyboardInterrupt then Outcome.ok (Except.ok ())
      else Outcome.ok (Except.error e)
    | Except.ok _ => Outcome.ok (Except.ok ())

/-- `try_close` (`lib.rs` lines 296–306): `EXECUTOR.get().expect(EXPECT_INIT)`
then `shutdown`, then `stop` and `close` on the cached loop (each
`get_event_loop` call panics if the loop cell is unset). -/
def try_close (h : Host) (reg : Registry) : Outcome (PyResult Unit) :=
  match reg.executor with
  | none => Outcome.panicked EXPECT_INIT
  | some ex =>
    match h.callShutdown ex with
    | Except.error e => Outcome.ok (Except.error e)
    | Except.ok _ =>
      match get_event_loop reg with
      | Outcome.panicked m => Outcome.panicked m
      | Outcome.ok l =>
        match h.callStop l with
        | Except.error e => Outcome.ok (Except.error e)
        | Except.ok _ =>
          match h.callClose l with
          | Except.error e => Outcome.ok (Except.error e)
          | Except.ok _ => Outcome.ok (Except.ok ())

/-- `with_runtime` (`lib.rs` lines 190–201): `try_init(py)?`, then the user
closure (its outcome is the value `f`), then `try_close(py)?`; each `?`
returns the error immediately, so `try_close` runs only when both `try_init`
and the closure succeeded.  The boolean reports whether `try_close` was
reached. -/
def with_runtime {R : Type} (h : Host) (reg : Registry) (f : PyResult R) :
    Outcome (PyResult R) × Registry × Bool :=
  match try_init h reg with
  | (Except.error e, reg2, _) => (Outcome.ok (Except.error e), reg2, false)
  | (Except.ok _, reg2, _) =>
    match f with
    | Except.error e => (Outcome.ok (Except.error e), reg2, false)
    | Except.ok r =>
      match try_close h reg2 with
      | Outcome.panicked m => (Outcome.panicked m, reg2, true)
      | Outcome.ok (Except.error e) => (Outcome.ok (Except.error e), reg2, true)
      | Outcome.ok (Except.ok _) => (Outcome.ok (Except.ok r), reg2, true)

/-! ## Task-local context (`tokio.rs` lines 47–121) -/

/-- Modelled from the spec: the `TaskLocals` struct itself lives in the part
of the crate not included here (only its uses in `tokio.rs` are); per the
spec's data model it is an immutable pair of reference-counted handles
`{ loop_handle, ambient_context }`, cheaply duplicable. -/
structure TaskLocals where
  loopHandle : PyObject
  ambientContext : PyObject
deriving DecidableEq, Repr

/-- `Clone` of `TaskLocals`: both fields are reference-counted handles, so a
clone is the identical snapshot. -/
def TaskLocals.clone (t : TaskLocals) : TaskLocals := t

/-- The contents of the `UnsyncOnceCell<TaskLocals>` stored in the
`TASK_LOCALS` tokio task-local (`none` = the cell is set but empty). -/
abbrev TaskLocalCell := Option TaskLocals

/-- The ambient `TASK_LOCALS` task-local as seen from the current task:
`none` when `try_with` fails (no task-local set, including when outside any
runtime task), `some c` when the task-local holds cell `c`. -/
abbrev AmbientTaskLocals := Option TaskLocalCell

/-- `ContextExt::scope` for `TokioRuntime` (`tokio.rs` lines 68–76): create
a fresh cell, set it to `locals`, and run the future with `TASK_LOCALS`
bound to that cell.  The future is modelled as a function of the ambient
task-local it observes during its execution. -/
def scope {R : Type} (locals : TaskLocals) (fut : AmbientTaskLocals → R) : R :=
  let cell : TaskLocalCell := some locals
  fut (some cell)

/-- `LocalContextExt::scope_local` for `TokioRuntime` (`tokio.rs` lines
96–104): same construction as `scope`, for `!Send` futures. -/
def scope_local {R : Type} (locals : TaskLocals) (fut : AmbientTaskLocals → R) : R :=
  let cell : TaskLocalCell := some locals
  fut (some cell)

/-- `ContextExt::get_task_locals` for `TokioRuntime` (`tokio.rs` lines
78–83): `TASK_LOCALS.try_with(|c| c.get().map(|locals| locals.clone()))`,
with `Err(_) => None`. -/
def get_task_locals (amb : AmbientTaskLocals) : Option TaskLocals :=
  match amb with
  | some c => c.map (fun locals => locals.clone)
  | none => none

/-! ## Concrete hosts used to exercise the definitions -/

/-- A concrete Python object. -/
def pyObj (n : Nat) : PyObject := { objId := n }

/-- A generic Python exception. -/
def errE : PyErr := { exc := pyObj 99, isKeyboardInterrupt := false }

/-- A `KeyboardInterrupt` exception. -/
def errKI : PyErr := { exc := pyObj 98, isKeyboardInterrupt := true }

/-- A host on which every Python call succeeds. -/
def hostOk : Host :=
  { importAsyncio := Except.ok (pyObj 1),
    getEnsureFuture := fun _ => Except.ok (pyObj 2),
    callGetEventLoop := fun _ => Except.ok (pyObj 3),
    importThreadMod := Except.ok (pyObj 4),
    getThreadPoolExecutorCls := fun _ => Except.ok (pyObj 5),
    callCls := fun _ => Except.ok (pyObj 6),
    setDefaultExecutor := fun _ _ => Except.ok (pyObj 0),
    getCallSoon := fun _ => Except.ok (pyObj 7),
    getCreateFuture := fun _ => Except.ok (pyObj 8),
    callRunForever := fun _ => Except.ok (pyObj 0),
    callShutdown := fun _ => Except.ok (pyObj 0),
    callStop := fun _ => Except.ok (pyObj 0),
    callClose := fun _ => Except.ok (pyObj 0) }

/-- A host on which importing `asyncio` fails. -/
def hostFailImport : Host := { hostOk with importAsyncio := Except.error errE }

/-- A host on which `run_forever` raises `KeyboardInterrupt`. -/
def hostKI : Host := { hostOk with callRunForever := fun _ => Except.error errKI }

/-- A host on which closing the loop fails. -/
def hostCloseErr : Host := { hostOk with callClose := fun _ => Except.error errE }

/-- The registry after a successful initialization on `hostOk`. -/
def regInit : Registry := (try_init hostOk emptyRegistry).2.1

/-! ## Helper lemmas -/

/-- Once the sender has been relinquished, no further event changes the
channel, and the sender stays relinquished. -/
lemma convStep_preserves_resolved (s : ConvState) (e : ConvEvent)
    (h : s.txHeld = false) :
    (convStep s e).txHeld = false ∧ (convStep s e).chan = s.chan := by
  cases e <;> simp [convStep, pyTaskCompleterCall, completerDropped, h]

/-- `convStep_preserves_resolved`, iterated over an event sequence. -/
lemma convRun_preserves_resolved (es : List ConvEvent) (s : ConvState)
    (h : s.txHeld = false) :
    (convRun s es).txHeld = false ∧ (convRun s es).chan = s.chan := by
  induction es generalizing s with
  | nil => exact ⟨h, rfl⟩
  | cons e es ih =>
    have hstep := convStep_preserves_resolved s e h
    have hrest := ih (convStep s e) hstep.1
    exact ⟨hrest.1, hrest.2.trans hstep.2⟩

/-- One step preserves the channel invariant: the sender is held exactly
while the channel is still pending. -/
lemma convStep_inv (s : ConvState) (e : ConvEvent)
    (h : s.txHeld = true ↔ s.chan = ChanState.pending) :
    ((convStep s e).txHeld = true ↔ (convStep s e).chan = ChanState.pending) := by
  cases e with
  | completer t =>
    cases htx : s.txHeld with
    | false =>
      have hnp : s.chan ≠ ChanState.pending := fun hc => by simp [h.mpr hc] at htx
      simp [convStep, pyTaskCompleterCall, htx, hnp]
    | true =>
      have hchan : s.chan = ChanState.pending := h.mp htx
      cases hrx : s.rxAlive <;>
        simp [convStep, pyTaskCompleterCall, oneshotSend, htx, hchan, hrx]
  | gcSender =>
    cases htx : s.txHeld with
    | false =>
      have hnp : s.chan ≠ ChanState.pending := fun hc => by simp [h.mpr hc] at htx
      simp [convStep, completerDropped, htx, hnp]
    | true =>
      have hchan : s.chan = ChanState.pending := h.mp htx
      simp [convStep, completerDropped, oneshotDropSender, htx, hchan]
  | dropRx =>
    simpa [convStep] using h

/-- The channel invariant holds in every state reachable from a fresh
conversion: the completion callback holds the sender iff nothing has been
delivered or dropped yet. -/
lemma convRun_inv (es : List ConvEvent) :
    ((convRun convInit es).txHeld = true ↔
      (convRun convInit es).chan = ChanState.pending) := by
  suffices hgen : ∀ s, (s.txHeld = true ↔ s.chan = ChanState.pending) →
      ((convRun s es).txHeld = true ↔ (convRun s es).chan = ChanState.pending) by
    exact hgen convInit (by simp [convInit])
  induction es with
  | nil => intro s hs; exact hs
  | cons e es ih =>
    intro s hs
    exact ih (convStep s e) (convStep_inv s e hs)

/-- A successful `try_init` leaves the `EVENT_LOOP` cell populated. -/
lemma try_init_ok_eventLoop (h : Host) (reg : Registry)
    (hok : (try_init h reg).1 = Except.ok ()) :
    ∃ l, ((try_init h reg).2.1).eventLoop = some l := by
  cases hE : reg.eventLoop with
  | some l => exact ⟨l, by simp [try_init, hE]⟩
  | none =>
    cases hC : tryInitClosure h with
    | error e => simp [try_init, hE, hC] at hok
    | ok b => exact ⟨b.eventLoop, by simp [try_init, hE, hC]⟩

/-! ## Claim theorems -/

/-- Claim C1: when the host-loop task completes (with a value or an
exception), the completion callback delivers exactly that outcome to the
one-shot channel; the delivered channel state is stable under every further
event, so the `PyFuture` resolves exactly once, with the task's
result-or-exception; and in every reachable conversion state the sender is
held iff the channel is still pending, so the channel observes exactly one
delivery or one drop — never both, never neither once the sender is
relinquished. -/
theorem into_future_resolves_exactly_once (t : PyTask) (rest es : List ConvEvent)
    (mk : PyResult PyErr) :
    (convStep convInit (ConvEvent.completer t)).chan = ChanState.delivered t.result
    ∧ (convRun (convStep convInit (ConvEvent.completer t)) rest).chan =
        ChanState.delivered t.result
    ∧ pyFuturePoll mk (convStep convInit (ConvEvent.completer t)).chan =
        Poll.ready t.result
    ∧ ((convRun convInit es).txHeld = true ↔
        (convRun convInit es).chan = ChanState.pending) := by
  have h1 : (convStep convInit (ConvEvent.completer t)).chan =
      ChanState.delivered t.result := by
    simp [convStep, pyTaskCompleterCall, convInit, oneshotSend]
  have htx : (convStep convInit (ConvEvent.completer t)).txHeld = false := by
    simp [convStep, pyTaskCompleterCall, convInit]
  refine ⟨h1, ?_, by rw [h1]; rfl, convRun_inv es⟩
  exact (convRun_preserves_resolved rest _ htx).2.trans h1

/-- Claim C2: polling the `PyFuture` is pending exactly while the channel is
empty (which, in every reachable conversion state, means the sender is still
alive), ready with the forwarded payload once delivered, and ready with the
synthesized `asyncio` `CancelledError` when the sender was dropped without
sending; a disconnected channel never polls as pending. -/
theorem pyFuture_poll_cases (ce : PyErr) (mk : PyResult PyErr)
    (v : PyResult PyObject) (es : List ConvEvent) :
    pyFuturePoll mk ChanState.pending = Poll.pending
    ∧ pyFuturePoll mk (ChanState.delivered v) = Poll.ready v
    ∧ pyFuturePoll (Except.ok ce) ChanState.disconnected =
        Poll.ready (Except.error ce)
    ∧ pyFuturePoll mk ChanState.disconnected ≠ Poll.pending
    ∧ ((convRun convInit es).chan = ChanState.pending →
        (convRun convInit es).txHeld = true) := by
  refine ⟨rfl, rfl, rfl, ?_, fun hc => (convRun_inv es).mpr hc⟩
  cases mk <;> simp [pyFuturePoll]

/-- Claim C3: after any invocation of `PyTaskCompleter::__call__` the sender
has been taken, so a second invocation returns `Ok(())` and leaves the state
untouched (a no-op, no panic); an invocation after the receiving `PyFuture`
was dropped also returns `Ok(())` (the send error is swallowed); indeed
every invocation returns `Ok(())`. -/
theorem completer_double_delivery_noop (t t2 : PyTask) (s : ConvState) :
    pyTaskCompleterCall t2 (pyTaskCompleterCall t s).2 =
      (Except.ok (), (pyTaskCompleterCall t s).2)
    ∧ pyTaskCompleterCall t (convStep convInit ConvEvent.dropRx) =
        (Except.ok (), { txHeld := false, chan := ChanState.disconnected,
                         rxAlive := false })
    ∧ (pyTaskCompleterCall t s).1 = Except.ok () := by
  refine ⟨?_, ?_, ?_⟩
  · have htx : (pyTaskCompleterCall t s).2.txHeld = false := by
      cases h : s.txHeld <;> simp [pyTaskCompleterCall, h]
    generalize hg : (pyTaskCompleterCall t s).2 = s1 at htx ⊢
    simp [pyTaskCompleterCall, htx]
  · simp [convStep, pyTaskCompleterCall, convInit, oneshotSend]
  · cases h : s.txHeld <;> simp [pyTaskCompleterCall, h]

/-- Claim C4: after a first successful `try_init`, a second call (whatever
the host would answer this time) returns `Ok(())`, runs no setup (the
closure does not execute: the flag is `false`), leaves every registry cell
unchanged, and `get_event_loop` afterwards returns the same cached handle
as after the first call. -/
theorem try_init_idempotent (h h2 : Host) (reg : Registry)
    (hok : (try_init h reg).1 = Except.ok ()) :
    try_init h2 (try_init h reg).2.1 =
      (Except.ok (), (try_init h reg).2.1, false)
    ∧ get_event_loop (try_init h2 (try_init h reg).2.1).2.1 =
        get_event_loop (try_init h reg).2.1 := by
  obtain ⟨l, hl⟩ := try_init_ok_eventLoop h reg hok
  have h2nd : try_init h2 (try_init h reg).2.1 =
      (Except.ok (), (try_init h reg).2.1, false) := by
    generalize hg : (try_init h reg).2.1 = reg1 at hl ⊢
    simp [try_init, hl]
  exact ⟨h2nd, by rw [h2nd]⟩

/-- Witness for C4 at a concrete all-succeeding host. -/
theorem try_init_idempotent_witness :
    try_init hostOk (try_init hostOk emptyRegistry).2.1 =
      (Except.ok (), (try_init hostOk emptyRegistry).2.1, false)
    ∧ get_event_loop (try_init hostOk (try_init hostOk emptyRegistry).2.1).2.1 =
        get_event_loop (try_init hostOk emptyRegistry).2.1 :=
  try_init_idempotent hostOk hostOk emptyRegistry (by decide)

/-- Claim C5: with a successful `try_init`, a failing user closure makes
`with_runtime` return the closure's error with `try_close` never attempted
(the registry — hence the loop — is left as initialization put it), while a
succeeding closure makes `with_runtime` reach `try_close`. -/
theorem with_runtime_closure_error_skips_close {R : Type} (h : Host)
    (reg : Registry) (e : PyErr)
    (hok : (try_init h reg).1 = Except.ok ()) :
    with_runtime h reg (Except.error e : PyResult R) =
      (Outcome.ok (Except.error e), (try_init h reg).2.1, false)
    ∧ (∀ r : R, (with_runtime h reg (Except.ok r)).2.2 = true) := by
  constructor
  · cases hi : try_init h reg with
    | mk r1 rest =>
      rw [hi] at hok
      cases rest with
      | mk reg2 ran => subst hok; simp [with_runtime, hi]
  · intro r
    cases hi : try_init h reg with
    | mk r1 rest =>
      rw [hi] at hok
      cases rest with
      | mk reg2 ran =>
        subst hok
        cases hc : try_close h reg2 with
        | panicked m => simp [with_runtime, hi, hc]
        | ok pr => cases pr <;> simp [with_runtime, hi, hc]

/-- Witness for C5 at a concrete all-succeeding host. -/
theorem with_runtime_closure_error_skips_close_witness :
    with_runtime hostOk emptyRegistry (Except.error errE : PyResult PyObject) =
      (Outcome.ok (Except.error errE), (try_init hostOk emptyRegistry).2.1, false)
    ∧ (∀ r : PyObject, (with_runtime hostOk emptyRegistry (Except.ok r)).2.2 = true) :=
  with_runtime_closure_error_skips_close hostOk emptyRegistry errE (by decide)

/-- Claim C6: while `scope L F` (or `scope_local L F`) runs the future,
`get_task_locals` returns a clone of `L`; the scoped future observes
exactly the installed cell; and outside any scope — in particular outside
any runtime task, where the task-local access fails — `get_task_locals`
returns `None`. -/
theorem scope_task_locals_visibility {R : Type} (L : TaskLocals)
    (fut : AmbientTaskLocals → R) :
    scope L get_task_locals = some (TaskLocals.clone L)
    ∧ scope_local L get_task_locals = some (TaskLocals.clone L)
    ∧ scope L fut = fut (some (some L))
    ∧ scope_local L fut = fut (some (some L))
    ∧ get_task_locals none = none :=
  ⟨rfl, rfl, rfl, rfl, rfl⟩

/-- Claim C7: with an uninitialized registry both `get_event_loop` and
`try_close` panic with the not-initialized message; after a successful
`try_init` from the fresh registry, neither panics, whatever the host
answers to the close calls. -/
theorem registry_accessors_panic_before_init (h h2 : Host)
    (hok : (try_init h emptyRegistry).1 = Except.ok ()) :
    get_event_loop emptyRegistry = Outcome.panicked EXPECT_INIT
    ∧ try_close h2 emptyRegistry = Outcome.panicked EXPECT_INIT
    ∧ (get_event_loop (try_init h emptyRegistry).2.1).isPanic = false
    ∧ (try_close h2 (try_init h emptyRegistry).2.1).isPanic = false := by
  refine ⟨rfl, rfl, ?_, ?_⟩
  · cases hC : tryInitClosure h with
    | error e => simp [try_init, emptyRegistry, hC] at hok
    | ok b => simp [try_init, emptyRegistry, hC, get_event_loop, Outcome.isPanic]
  · cases hC : tryInitClosure h with
    | error e => simp [try_init, emptyRegistry, hC] at hok
    | ok b =>
      simp only [try_init, emptyRegistry, hC]
      cases hs : h2.callShutdown b.executor with
      | error e => simp [try_close, getOrInit, Outcome.isPanic, hs]
      | ok x =>
        cases hp : h2.callStop b.eventLoop with
        | error e =>
          simp [try_close, getOrInit, get_event_loop, Outcome.isPanic, hs, hp]
        | ok y =>
          cases hq : h2.callClose b.eventLoop with
          | error e =>
            simp [try_close, getOrInit, get_event_loop, Outcome.isPanic, hs, hp, hq]
          | ok z =>
            simp [try_close, getOrInit, get_event_loop, Outcome.isPanic, hs, hp, hq]

/-- Witness for C7 at a concrete all-succeeding host. -/
theorem registry_accessors_panic_before_init_witness :
    get_event_loop emptyRegistry = Outcome.panicked EXPECT_INIT
    ∧ try_close hostOk emptyRegistry = Outcome.panicked EXPECT_INIT
    ∧ (get_event_loop (try_init hostOk emptyRegistry).2.1).isPanic = false
    ∧ (try_close hostOk (try_init hostOk emptyRegistry).2.1).isPanic = false :=
  registry_accessors_panic_before_init hostOk hostOk (by decide)

/-- Claim C8: with the loop cached, `run_forever` returns `Ok(())` when the
loop's `run_forever` raises `KeyboardInterrupt` or returns normally, and
propagates any other exception unchanged as the error. -/
theorem run_forever_interrupt_is_normal_termination (h : Host) (reg : Registry)
    (l : PyObject) (hl : reg.eventLoop = some l) :
    (∀ e : PyErr, h.callRunForever l = Except.error e → e.isKeyboardInterrupt = true →
        run_forever h reg = Outcome.ok (Except.ok ()))
    ∧ (∀ e : PyErr, h.callRunForever l = Except.error e → e.isKeyboardInterrupt = false →
        run_forever h reg = Outcome.ok (Except.error e))
    ∧ (∀ x : PyObject, h.callRunForever l = Except.ok x →
        run_forever h reg = Outcome.ok (Except.ok ())) := by
  refine ⟨fun e he hki => ?_, fun e he hki => ?_, fun x hx => ?_⟩ <;>
    simp [run_forever, get_event_loop, hl, *]

/-- Witness for C8: `KeyboardInterrupt` during `run_forever` is normal
termination on the initialized registry. -/
theorem run_forever_interrupt_witness :
    run_forever hostKI regInit = Outcome.ok (Except.ok ()) :=
  (run_forever_interrupt_is_normal_termination hostKI regInit (pyObj 3)
    (by decide)).1 errKI (by decide) (by decide)

/-- Claim C9: when any step of the host setup fails (importing `asyncio`,
getting the loop, building or installing the executor, fetching the loop
methods), `try_init` on an uninitialized registry returns exactly that
error and leaves the registry unchanged — no cell is populated. -/
theorem try_init_error_leaves_registry_unchanged (h : Host) (reg : Registry)
    (e : PyErr) (herr : tryInitClosure h = Except.error e)
    (hun : reg.eventLoop = none) :
    try_init h reg = (Except.error e, reg, true) := by
  simp [try_init, hun, herr]

/-- Witness for C9: a failing `asyncio` import leaves the fresh registry
empty and surfaces the import error. -/
theorem try_init_error_witness :
    try_init hostFailImport emptyRegistry = (Except.error errE, emptyRegistry, true) :=
  try_init_error_leaves_registry_unchanged hostFailImport emptyRegistry errE
    (by decide) (by decide)

/-- Claim C10: with `try_init` and the closure both succeeding, a failing
final `try_close` makes `with_runtime` return the close error (the
closure's value is discarded), and `with_runtime` returns `Ok` with the
closure's value exactly when `try_close` also succeeds. -/
theorem with_runtime_close_error_discards_value {R : Type} (h : Host)
    (reg : Registry) (r : R)
    (hok : (try_init h reg).1 = Except.ok ()) :
    (∀ e : PyErr,
        try_close h (try_init h reg).2.1 = Outcome.ok (Except.error e) →
        with_runtime h reg (Except.ok r) =
          (Outcome.ok (Except.error e), (try_init h reg).2.1, true))
    ∧ (try_close h (try_init h reg).2.1 = Outcome.ok (Except.ok ()) →
        with_runtime h reg (Except.ok r) =
          (Outcome.ok (Except.ok r), (try_init h reg).2.1, true)) := by
  cases hi : try_init h reg with
  | mk r1 rest =>
    rw [hi] at hok
    cases rest with
    | mk reg2 ran =>
      subst hok
      exact ⟨fun e hc => by simp [with_runtime, hi, hc],
             fun hc => by simp [with_runtime, hi, hc]⟩

/-- Witness for C10: a failing loop `close` makes `with_runtime` discard the
closure's successful value and return the close error. -/
theorem with_runtime_close_error_witness :
    with_runtime hostCloseErr emptyRegistry (Except.ok (pyObj 42)) =
      (Outcome.ok (Except.error errE), (try_init hostCloseErr emptyRegistry).2.1, true) :=
  (with_runtime_close_error_discards_value hostCloseErr emptyRegistry (pyObj 42)
    (by decide)).1 errE (by decide)

end PyO3Asyncio
